import Mathlib

/-!
Verification of the command dispatch and file-access layer of a Tauri
desktop backend (`src-tauri/src/main.rs`).

The five Tauri commands are shallowly embedded:
* `mama_bear_greeting` is a constant string;
* `connect_mcp_server` and `send_family_message` are the source's stubs,
  pure functions of their argument that always return `Ok`;
* `read_project_file` / `write_project_file` call `std::fs::read_to_string`
  and `std::fs::write`; the operating-system filesystem is modelled as a
  map from paths to byte contents, together with fault oracles for the
  OS-level failures (permissions, disk errors) that the OS may report.

`std::fs::read_to_string` reads the file's bytes and decodes them as
UTF-8, failing on missing files, OS faults, and invalid UTF-8;
`std::fs::write` stores the UTF-8 bytes of the given string.  The UTF-8
codec is modelled faithfully over `List Nat` (byte values), with the
exact validation Rust performs: continuation-byte shape, overlong
encodings, surrogate range, and the `0x10FFFF` upper bound.
-/

/-- UTF-8 encoding of one unicode scalar value, as byte values
(model of the byte representation of a Rust `String`, per RFC 3629). -/
def utf8EncodeCharNat (c : Char) : List Nat :=
  if c.toNat < 0x80 then [c.toNat]
  else if c.toNat < 0x800 then
    [0xc0 + c.toNat / 64, 0x80 + c.toNat % 64]
  else if c.toNat < 0x10000 then
    [0xe0 + c.toNat / 4096, 0x80 + c.toNat / 64 % 64, 0x80 + c.toNat % 64]
  else
    [0xf0 + c.toNat / 262144, 0x80 + c.toNat / 4096 % 64,
     0x80 + c.toNat / 64 % 64, 0x80 + c.toNat % 64]

/-- UTF-8 encoding of a list of characters. -/
def utf8EncodeNat : List Char → List Nat
  | [] => []
  | c :: cs => utf8EncodeCharNat c ++ utf8EncodeNat cs

/-- The byte content `std::fs::write` stores for a Rust `String`. -/
def encodeUtf8 (s : String) : List Nat :=
  utf8EncodeNat s.data

/-- Strict decoding of one UTF-8 sequence starting with byte `b0`,
followed by the bytes `bs`; returns the code point and the remaining
bytes, or `none` on any invalid sequence.  This is the validation
`String::from_utf8` / `read_to_string` performs: continuation bytes must
be `0x80..0xBF`, and overlong encodings, the surrogate range
`0xD800..0xDFFF` and values above `0x10FFFF` are rejected. -/
def utf8DecodeNext (b0 : Nat) (bs : List Nat) : Option (Nat × List Nat) :=
  if b0 < 0x80 then some (b0, bs)
  else if b0 < 0xe0 then
    match bs with
    | b1 :: bs2 =>
      if 0xc0 ≤ b0 ∧ 0x80 ≤ b1 ∧ b1 < 0xc0 ∧
          0x80 ≤ (b0 - 0xc0) * 64 + (b1 - 0x80) then
        some ((b0 - 0xc0) * 64 + (b1 - 0x80), bs2)
      else none
    | [] => none
  else if b0 < 0xf0 then
    match bs with
    | b1 :: b2 :: bs3 =>
      if 0x80 ≤ b1 ∧ b1 < 0xc0 ∧ 0x80 ≤ b2 ∧ b2 < 0xc0 ∧
          0x800 ≤ (b0 - 0xe0) * 4096 + (b1 - 0x80) * 64 + (b2 - 0x80) ∧
          ((b0 - 0xe0) * 4096 + (b1 - 0x80) * 64 + (b2 - 0x80) < 0xd800 ∨
            0xdfff < (b0 - 0xe0) * 4096 + (b1 - 0x80) * 64 + (b2 - 0x80)) then
        some ((b0 - 0xe0) * 4096 + (b1 - 0x80) * 64 + (b2 - 0x80), bs3)
      else none
    | _ => none
  else
    match bs with
    | b1 :: b2 :: b3 :: bs4 =>
      if b0 < 0xf8 ∧ 0x80 ≤ b1 ∧ b1 < 0xc0 ∧ 0x80 ≤ b2 ∧ b2 < 0xc0 ∧
          0x80 ≤ b3 ∧ b3 < 0xc0 ∧
          0x10000 ≤ (b0 - 0xf0) * 262144 + (b1 - 0x80) * 4096 +
            (b2 - 0x80) * 64 + (b3 - 0x80) ∧
          (b0 - 0xf0) * 262144 + (b1 - 0x80) * 4096 +
            (b2 - 0x80) * 64 + (b3 - 0x80) < 0x110000 then
        some ((b0 - 0xf0) * 262144 + (b1 - 0x80) * 4096 +
          (b2 - 0x80) * 64 + (b3 - 0x80), bs4)
      else none
    | _ => none

/-- Strict UTF-8 decoding of a byte list via `utf8DecodeNext`, `none` on
any invalid sequence.  `fuel` bounds the number of decoded characters;
one unit is spent per character, so any `fuel ≥` the byte count is
enough. -/
def decodeUtf8Go : Nat → List Nat → Option (List Char)
  | _, [] => some []
  | 0, _ :: _ => none
  | fuel + 1, b0 :: bs =>
    match utf8DecodeNext b0 bs with
    | some (cp, rest) => (decodeUtf8Go fuel rest).map (fun cs => Char.ofNat cp :: cs)
    | none => none

/-- Strict UTF-8 decoding of a byte list, `none` on any invalid
sequence (a character takes at least one byte, so `l.length` is always
enough fuel). -/
def decodeUtf8 (l : List Nat) : Option (List Char) :=
  decodeUtf8Go l.length l

/-- Decoding a byte list into a Rust `String`, the success value of
`std::fs::read_to_string`. -/
def decodeUtf8String (l : List Nat) : Option String :=
  (decodeUtf8 l).map String.mk

/-- The operating-system state the two `std::fs` calls interact with:
the file contents (bytes; `none` = no file at that path), plus fault
oracles modelling OS-level read/write failures other than a missing file
(permissions, path-resolution failure, disk errors).  A `some reason`
means the OS reports that failure, with `reason` its display text. -/
structure OsEnv where
  files : String → Option (List Nat)
  readFault : String → Option String
  writeFault : String → Option String

/-- Display text of the `std::io::Error` for a missing file. -/
def noSuchFileMsg : String :=
  "No such file or directory (os error 2)"

/-- Display text of the `std::io::Error` `read_to_string` produces on
invalid UTF-8 content. -/
def invalidUtf8Msg : String :=
  "stream did not contain valid UTF-8"

/-- Model of `std::fs::read_to_string(&path)`: an OS fault, a missing
file, or invalid UTF-8 yields `Err` with the error display text;
otherwise `Ok` with the decoded content. -/
def fsReadToString (env : OsEnv) (path : String) : Except String String :=
  match env.readFault path with
  | some reason => Except.error reason
  | none =>
    match env.files path with
    | none => Except.error noSuchFileMsg
    | some bytes =>
      match decodeUtf8String bytes with
      | none => Except.error invalidUtf8Msg
      | some content => Except.ok content

/-- Model of `std::fs::write(&path, content)`: on an OS fault, `Err`
with the fault's display text and no change; otherwise the file at
`path` is created or replaced with the UTF-8 bytes of `content`. -/
def fsWrite (env : OsEnv) (path content : String) :
    OsEnv × Except String Unit :=
  match env.writeFault path with
  | some reason => (env, Except.error reason)
  | none =>
    ({ env with
        files := fun p => if p = path then some (encodeUtf8 content) else env.files p },
      Except.ok ())

/-- `fn mama_bear_greeting() -> String` — returns a fixed literal. -/
def mama_bear_greeting : String :=
  "💜 Welcome to Mama Bear\x27s Beautiful Family IDE! Ready to code with LOVE! 💜"

/-- `async fn connect_mcp_server(server_url: String) -> Result<String, String>` —
the body is a stub that formats a success message around `server_url`. -/
def connect_mcp_server (server_url : String) : Except String String :=
  Except.ok ("🦍 Connected to Papa Bear at " ++ server_url ++
    "! Family coordination ACTIVE! 💜")

/-- `async fn send_family_message(message: String) -> Result<String, String>` —
the body is a stub that formats a success message around `message`. -/
def send_family_message (message : String) : Except String String :=
  Except.ok ("🐻 Mama Bear received: \x27" ++ message ++
    "\x27 - sending to family with LOVE! 💜")

/-- `async fn read_project_file(path: String) -> Result<String, String>`:
`std::fs::read_to_string(&path)`, with the error formatted into the
apologetic message. -/
def read_project_file (env : OsEnv) (path : String) : Except String String :=
  match fsReadToString env path with
  | Except.ok content => Except.ok content
  | Except.error e =>
      Except.error ("💜 Couldn\x27t read file " ++ path ++ ": " ++ e ++
        " - but that\x27s okay, we\x27ll try again! 💜")

/-- `async fn write_project_file(path: String, content: String) -> Result<String, String>`:
`std::fs::write(&path, content)`, with success/error formatted into
messages naming the path. -/
def write_project_file (env : OsEnv) (path content : String) :
    OsEnv × Except String String :=
  match fsWrite env path content with
  | (env2, Except.ok _) =>
      (env2, Except.ok ("💜 Successfully wrote to " ++ path ++ " with LOVE! ✨"))
  | (env2, Except.error e) =>
      (env2, Except.error ("💜 Couldn\x27t write to " ++ path ++ ": " ++ e ++
        " - but we believe in you! 💜"))

/-- The five commands registered in `invoke_handler(tauri::generate_handler![...])`. -/
inductive Command where
  | mamaBearGreeting : Command
  | connectMcpServer (server_url : String) : Command
  | sendFamilyMessage (message : String) : Command
  | readProjectFile (path : String) : Command
  | writeProjectFile (path content : String) : Command

/-- The dispatcher: routes each registered command to its handler,
threading the OS state; `mama_bear_greeting` returns a plain `String`,
which reaches the shell as a success value. -/
def dispatch (env : OsEnv) : Command → OsEnv × Except String String
  | Command.mamaBearGreeting => (env, Except.ok mama_bear_greeting)
  | Command.connectMcpServer server_url => (env, connect_mcp_server server_url)
  | Command.sendFamilyMessage message => (env, send_family_message message)
  | Command.readProjectFile path => (env, read_project_file env path)
  | Command.writeProjectFile path content => write_project_file env path content

/-- An environment with no files and no OS faults, used for concrete
evaluations. -/
def emptyEnv : OsEnv where
  files := fun _ => none
  readFault := fun _ => none
  writeFault := fun _ => none

/-- A `Char`'s code point is a unicode scalar value, at `Nat` level. -/
theorem char_toNat_valid (c : Char) :
    c.toNat < 0xd800 ∨ (0xdfff < c.toNat ∧ c.toNat < 0x110000) := by
  rcases c.valid with h | ⟨h1, h2⟩
  · exact Or.inl (UInt32.toNat_lt_of_lt (by decide) h)
  · exact Or.inr ⟨UInt32.lt_toNat_of_lt (by decide) h1,
      UInt32.toNat_lt_of_lt (by decide) h2⟩

/-- Decoding a 1-byte sequence. -/
theorem utf8DecodeNext_one (n : Nat) (bs : List Nat) (h : n < 0x80) :
    utf8DecodeNext n bs = some (n, bs) := by
  simp only [utf8DecodeNext]
  rw [if_pos h]

/-- Decoding the 2-byte encoding of `n` recovers `n`. -/
theorem utf8DecodeNext_two (n : Nat) (bs : List Nat) (h1 : 0x80 ≤ n)
    (h2 : n < 0x800) :
    utf8DecodeNext (0xc0 + n / 64) ((0x80 + n % 64) :: bs) = some (n, bs) := by
  simp only [utf8DecodeNext]
  rw [if_neg (by omega), if_pos (by omega), if_pos (by omega)]
  have hX : (0xc0 + n / 64 - 0xc0) * 64 + (0x80 + n % 64 - 0x80) = n := by omega
  rw [hX]

/-- Decoding the 3-byte encoding of a non-surrogate `n` recovers `n`. -/
theorem utf8DecodeNext_three (n : Nat) (bs : List Nat) (h1 : 0x800 ≤ n)
    (h2 : n < 0x10000) (h3 : n < 0xd800 ∨ 0xdfff < n) :
    utf8DecodeNext (0xe0 + n / 4096)
      ((0x80 + n / 64 % 64) :: (0x80 + n % 64) :: bs) = some (n, bs) := by
  simp only [utf8DecodeNext]
  rw [if_neg (by omega), if_neg (by omega), if_pos (by omega), if_pos (by omega)]
  have hX : (0xe0 + n / 4096 - 0xe0) * 4096 + (0x80 + n / 64 % 64 - 0x80) * 64 +
      (0x80 + n % 64 - 0x80) = n := by omega
  rw [hX]

/-- Decoding the 4-byte encoding of `n` recovers `n`. -/
theorem utf8DecodeNext_four (n : Nat) (bs : List Nat) (h1 : 0x10000 ≤ n)
    (h2 : n < 0x110000) :
    utf8DecodeNext (0xf0 + n / 262144)
      ((0x80 + n / 4096 % 64) :: (0x80 + n / 64 % 64) :: (0x80 + n % 64) :: bs)
      = some (n, bs) := by
  simp only [utf8DecodeNext]
  rw [if_neg (by omega), if_neg (by omega), if_neg (by omega), if_pos (by omega)]
  have hX : (0xf0 + n / 262144 - 0xf0) * 262144 + (0x80 + n / 4096 % 64 - 0x80) * 4096 +
      (0x80 + n / 64 % 64 - 0x80) * 64 + (0x80 + n % 64 - 0x80) = n := by omega
  rw [hX]

/-- Decoding after encoding one character consumes exactly its bytes and
recovers the character, spending one unit of fuel. -/
theorem decodeUtf8Go_encode_char (c : Char) (f : Nat) (bs : List Nat) :
    decodeUtf8Go (f + 1) (utf8EncodeCharNat c ++ bs) =
      (decodeUtf8Go f bs).map (fun cs => c :: cs) := by
  have hv := char_toNat_valid c
  by_cases h1 : c.toNat < 0x80
  · unfold utf8EncodeCharNat
    rw [if_pos h1]
    simp only [List.cons_append, List.nil_append]
    simp only [decodeUtf8Go, utf8DecodeNext_one c.toNat bs h1, Char.ofNat_toNat]
  · by_cases h2 : c.toNat < 0x800
    · unfold utf8EncodeCharNat
      rw [if_neg h1, if_pos h2]
      simp only [List.cons_append, List.nil_append]
      simp only [decodeUtf8Go, utf8DecodeNext_two c.toNat bs (by omega) h2,
        Char.ofNat_toNat]
    · by_cases h3 : c.toNat < 0x10000
      · unfold utf8EncodeCharNat
        rw [if_neg h1, if_neg h2, if_pos h3]
        have hs : c.toNat < 0xd800 ∨ 0xdfff < c.toNat := by omega
        simp only [List.cons_append, List.nil_append]
        simp only [decodeUtf8Go, utf8DecodeNext_three c.toNat bs (by omega) h3 hs,
          Char.ofNat_toNat]
      · unfold utf8EncodeCharNat
        rw [if_neg h1, if_neg h2, if_neg h3]
        have h4 : c.toNat < 0x110000 := by omega
        simp only [List.cons_append, List.nil_append]
        simp only [decodeUtf8Go, utf8DecodeNext_four c.toNat bs (by omega) h4,
          Char.ofNat_toNat]

/-- With enough fuel (one unit per character), decoding inverts
encoding. -/
theorem decodeUtf8Go_encode (cs : List Char) :
    ∀ f, cs.length ≤ f → decodeUtf8Go f (utf8EncodeNat cs) = some cs := by
  induction cs with
  | nil =>
    intro f _
    cases f <;> rfl
  | cons c cs ih =>
    intro f hf
    cases f with
    | zero =>
      exact absurd hf (by simp)
    | succ f =>
      rw [utf8EncodeNat, decodeUtf8Go_encode_char,
        ih f (by simp only [List.length_cons] at hf; omega)]
      rfl

/-- Every character takes at least one byte to encode. -/
theorem utf8EncodeCharNat_length_pos (c : Char) :
    1 ≤ (utf8EncodeCharNat c).length := by
  unfold utf8EncodeCharNat
  split
  · simp
  · split
    · simp
    · split <;> simp

/-- The byte count of an encoded list bounds its character count. -/
theorem length_le_utf8EncodeNat (cs : List Char) :
    cs.length ≤ (utf8EncodeNat cs).length := by
  induction cs with
  | nil => simp [utf8EncodeNat]
  | cons c cs ih =>
    rw [utf8EncodeNat]
    simp only [List.length_append, List.length_cons]
    have := utf8EncodeCharNat_length_pos c
    omega

/-- UTF-8 decoding inverts UTF-8 encoding on any character list. -/
theorem decode_encode (cs : List Char) :
    decodeUtf8 (utf8EncodeNat cs) = some cs :=
  decodeUtf8Go_encode cs _ (length_le_utf8EncodeNat cs)

/-- String-level round trip: the bytes `fsWrite` stores decode back to
the very string that was written. -/
theorem decodeUtf8String_encodeUtf8 (s : String) :
    decodeUtf8String (encodeUtf8 s) = some s := by
  rw [decodeUtf8String, encodeUtf8, decode_encode]
  rfl

example : decodeUtf8 [0x68, 0x69] = some ['h', 'i'] := by decide

example : decodeUtf8 [0xff] = none := by decide

example : decodeUtf8 (encodeUtf8 "héλ") = some ['h', 'é', 'λ'] := by decide

example : decodeUtf8 [0xc0, 0x80] = none := by decide

example : decodeUtf8 [0xed, 0xa0, 0x80] = none := by decide

example :
    read_project_file emptyEnv "a.txt" =
      Except.error ("💜 Couldn\x27t read file a.txt: No such file or directory (os error 2) - but that\x27s okay, we\x27ll try again! 💜") :=
  rfl

/-- An environment holding one non-UTF-8 file, used for concrete
evaluations. -/
def binEnv : OsEnv where
  files := fun p => if p = "blob.bin" then some [0xff, 0x00] else none
  readFault := fun _ => none
  writeFault := fun _ => none

/-- C1: for every path with no write fault and no read fault,
`write_project_file` followed by `read_project_file` on the same path
returns exactly the written content as the success value. -/
theorem write_then_read_roundtrip (env : OsEnv) (p c : String)
    (hw : env.writeFault p = none) (hr : env.readFault p = none) :
    read_project_file (write_project_file env p c).1 p = Except.ok c := by
  unfold write_project_file fsWrite
  rw [hw]
  unfold read_project_file fsReadToString
  dsimp only
  rw [hr]
  dsimp only
  rw [if_pos rfl]
  dsimp only
  rw [decodeUtf8String_encodeUtf8]

/-- Witness for C1 at a concrete environment, path and content. -/
theorem write_then_read_roundtrip_witness :
    read_project_file (write_project_file emptyEnv "notes.txt" "hello world").1
      "notes.txt" = Except.ok "hello world" :=
  write_then_read_roundtrip emptyEnv "notes.txt" "hello world" rfl rfl

/-- C2 counterexample: with no session state at all (the source keeps
none, so no `connect` has ever happened), `send_family_message` returns
a success value, not an error. -/
theorem send_family_message_no_session_succeeds :
    send_family_message "hello" =
      Except.ok "🐻 Mama Bear received: \x27hello\x27 - sending to family with LOVE! 💜" :=
  rfl

/-- C2 amended: `send_family_message` never fails, with or without a
prior connect; it always returns the success acknowledgment embedding
the message (the source tracks no session and cannot report
`NoActiveSessionError`). -/
theorem send_family_message_always_succeeds (message : String) :
    send_family_message message =
      Except.ok ("🐻 Mama Bear received: \x27" ++ message ++
        "\x27 - sending to family with LOVE! 💜") :=
  rfl

/-- C3 counterexample: on the spec's unreachable address,
`connect_mcp_server` returns a success confirmation, not a
`ConnectionError`. -/
theorem connect_unreachable_returns_success :
    connect_mcp_server "https://agents.example/sse" =
      Except.ok "🦍 Connected to Papa Bear at https://agents.example/sse! Family coordination ACTIVE! 💜" :=
  rfl

/-- C3 amended: `connect_mcp_server` returns a success confirmation
containing the URL for every server URL, reachable or not; it performs
no connection attempt, never returns an error, and there is no session
state to remain `Disconnected`. -/
theorem connect_mcp_server_always_ok (server_url : String) :
    connect_mcp_server server_url =
      Except.ok ("🦍 Connected to Papa Bear at " ++ server_url ++
        "! Family coordination ACTIVE! 💜") :=
  rfl

/-- C4: reading a path with no file (and no other OS fault) fails with
the read-error message carrying the path and the OS reason; the
function is total, so no other outcome is possible. -/
theorem read_missing_file (env : OsEnv) (p : String)
    (hf : env.files p = none) (hr : env.readFault p = none) :
    read_project_file env p =
      Except.error ("💜 Couldn\x27t read file " ++ p ++ ": " ++ noSuchFileMsg ++
        " - but that\x27s okay, we\x27ll try again! 💜") := by
  unfold read_project_file fsReadToString
  rw [hr]
  dsimp only
  rw [hf]

/-- Witness for C4 at a concrete environment and missing path. -/
theorem read_missing_file_witness :
    read_project_file emptyEnv "missing.txt" =
      Except.error ("💜 Couldn\x27t read file " ++ "missing.txt" ++ ": " ++
        noSuchFileMsg ++ " - but that\x27s okay, we\x27ll try again! 💜") :=
  read_missing_file emptyEnv "missing.txt" rfl rfl

/-- C5: the greeting command is pure: in every program state it leaves
the state unchanged, cannot fail, and returns the one fixed literal
welcome string. -/
theorem greeting_fixed (env : OsEnv) :
    dispatch env Command.mamaBearGreeting =
      (env, Except.ok "💜 Welcome to Mama Bear\x27s Beautiful Family IDE! Ready to code with LOVE! 💜") :=
  rfl

/-- C6: `write_project_file` either stores exactly the encoded content
at the path and confirms with a success message naming the path, or, on
a write fault, returns the write-error message carrying the path and
the underlying reason. -/
theorem write_project_file_spec (env : OsEnv) (p c : String) :
    ((write_project_file env p c).1.files p = some (encodeUtf8 c) ∧
      (write_project_file env p c).2 =
        Except.ok ("💜 Successfully wrote to " ++ p ++ " with LOVE! ✨")) ∨
    (∃ r, env.writeFault p = some r ∧
      (write_project_file env p c).1 = env ∧
      (write_project_file env p c).2 =
        Except.error ("💜 Couldn\x27t write to " ++ p ++ ": " ++ r ++
          " - but we believe in you! 💜")) := by
  cases hw : env.writeFault p with
  | none =>
    left
    unfold write_project_file fsWrite
    rw [hw]
    dsimp only
    rw [if_pos rfl]
    exact ⟨rfl, rfl⟩
  | some r =>
    right
    refine ⟨r, rfl, ?_, ?_⟩ <;>
      · unfold write_project_file fsWrite
        rw [hw]

/-- C7: every dispatched command resolves to exactly one of a success
string or an error string, never both and never neither. -/
theorem dispatch_exactly_one_outcome (env : OsEnv) (cmd : Command) :
    ((∃ s, (dispatch env cmd).2 = Except.ok s) ∧
      ¬ ∃ e, (dispatch env cmd).2 = Except.error e) ∨
    ((∃ e, (dispatch env cmd).2 = Except.error e) ∧
      ¬ ∃ s, (dispatch env cmd).2 = Except.ok s) := by
  cases h : (dispatch env cmd).2 with
  | ok s =>
    refine Or.inl ⟨⟨s, rfl⟩, ?_⟩
    rintro ⟨e, he⟩
    cases he
  | error e =>
    refine Or.inr ⟨⟨e, rfl⟩, ?_⟩
    rintro ⟨s, hs⟩
    cases hs

/-- C8: the placeholder `send_family_message` echoes the message
content verbatim inside its success acknowledgment. -/
theorem send_family_message_echoes_content (message : String) :
    ∃ pre suf, send_family_message message = Except.ok (pre ++ message ++ suf) :=
  ⟨"🐻 Mama Bear received: \x27", "\x27 - sending to family with LOVE! 💜", rfl⟩

/-- C9: `connect_mcp_server` succeeds unconditionally on every URL with
a confirmation containing the URL verbatim, changes no state, and its
result is the same in any two program states. -/
theorem connect_unconditional_pure (env env2 : OsEnv) (server_url : String) :
    dispatch env (Command.connectMcpServer server_url) =
      (env, Except.ok ("🦍 Connected to Papa Bear at " ++ server_url ++
        "! Family coordination ACTIVE! 💜")) ∧
    (dispatch env (Command.connectMcpServer server_url)).2 =
      (dispatch env2 (Command.connectMcpServer server_url)).2 :=
  ⟨rfl, rfl⟩

/-- C10: reading an existing, fault-free file whose bytes are not valid
UTF-8 fails with the read-error message carrying the path and the OS
reason; it never returns a success value. -/
theorem read_invalid_utf8 (env : OsEnv) (p : String) (bs : List Nat)
    (hr : env.readFault p = none) (hf : env.files p = some bs)
    (hinv : decodeUtf8 bs = none) :
    read_project_file env p =
      Except.error ("💜 Couldn\x27t read file " ++ p ++ ": " ++ invalidUtf8Msg ++
        " - but that\x27s okay, we\x27ll try again! 💜") := by
  have hs : decodeUtf8String bs = none := by
    rw [decodeUtf8String, hinv]
    rfl
  unfold read_project_file fsReadToString
  rw [hr]
  dsimp only
  rw [hf]
  dsimp only
  rw [hs]

/-- Witness for C10 at a concrete environment holding a non-UTF-8
file. -/
theorem read_invalid_utf8_witness :
    read_project_file binEnv "blob.bin" =
      Except.error ("💜 Couldn\x27t read file " ++ "blob.bin" ++ ": " ++
        invalidUtf8Msg ++ " - but that\x27s okay, we\x27ll try again! 💜") :=
  read_invalid_utf8 binEnv "blob.bin" [0xff, 0x00] rfl (by decide) (by decide)
